import Mathlib

/-!
Shallow embedding of `src/container.rs` (crate `canister`).

The module orchestrates four remote calls against a container engine
(pull, create, start, inspect) behind a fluent builder, plus a forced
removal on the resulting handle.  The engine is external: we model it as
an oracle (`EngineBehavior`) giving the response of each remote
operation, and every effectful function returns its result together with
the ordered trace of engine calls it issued (`List Event`).  Randomness
(the alphanumeric slug drawn from `thread_rng`) is modelled by an
explicit character stream `rng : Nat → Char`.
-/

set_option synthInstance.maxSize 1000

namespace Canister

/-- `Protocol` from the source: TCP or UDP. -/
inductive Protocol
  | tcp
  | udp
deriving DecidableEq, Repr

/-- `Protocol::as_ref`: the protocol string sent to the engine. -/
def Protocol.as_ref : Protocol → String
  | Protocol.tcp => "tcp"
  | Protocol.udp => "udp"

/-- `Port`: a container-internal port, a host port and a protocol. -/
structure Port where
  source : Nat
  host : Nat
  protocol : Protocol
deriving DecidableEq, Repr

/-- The creation parameters assembled by `create_container`:
the image reference, the optional resolved name, and the exposed ports as
`(source, protocol string, host)` triples in declaration order
(mirroring `ContainerOptions::builder` / `.name` / `.expose`). -/
structure ContainerOptions where
  image : String
  name : Option String
  ports : List (Nat × String × Nat)
deriving DecidableEq, Repr

/-- The `network_settings` part of shiplift's `ContainerDetails` that the
source reads: the optional port-binding map, keyed by "port/protocol"
strings. `HashMap` is modelled as an association list. -/
structure NetworkSettings where
  ports : Option (List (String × Option (List (List (String × String)))))
deriving DecidableEq, Repr

/-- The slice of shiplift's `ContainerDetails` that the source reads:
the engine-assigned id and the network settings. -/
structure ContainerDetails where
  id : String
  network_settings : NetworkSettings
deriving DecidableEq, Repr

/-- One remote call issued to the engine, in the order issued. -/
inductive Event
  | pull (image : String)
  | create (options : ContainerOptions)
  | start (id : String)
  | inspect (id : String)
  | remove (id : String) (force : Bool)
deriving DecidableEq, Repr

variable {Err : Type}

/-- The external engine, as an oracle: the response each remote call
would produce.  `pull` returning `ok` means the progress stream drained
without error. -/
structure EngineBehavior (Err : Type) where
  pull : String → Except Err Unit
  create : ContainerOptions → Except Err String
  start : String → Except Err Unit
  inspect : String → Except Err ContainerDetails
  remove : String → Bool → Except Err Unit

/-- Future chaining (`and_then`): the continuation runs, and its engine
calls happen, only when the first step succeeded; an error short-circuits
with the trace produced so far. -/
def andThen {α β : Type} (x : Except Err α × List Event)
    (f : α → Except Err β × List Event) : Except Err β × List Event :=
  match x with
  | (Except.ok a, t) => ((f a).1, t ++ (f a).2)
  | (Except.error e, t) => (Except.error e, t)

/-- Future `map`: transform the success value, no extra engine call. -/
def mapRes {α β : Type} (x : Except Err α × List Event) (f : α → β) :
    Except Err β × List Event :=
  (Except.map f x.1, x.2)

/-- Free function `pull_image`: issues one pull of `image`, drains the
progress stream (logging only), and yields the image reference back. -/
def pull_image (eng : EngineBehavior Err) (image : String) :
    Except Err String × List Event :=
  (Except.map (fun _ => image) (eng.pull image), [Event.pull image])

/-- Free function `pull_image_if`: pull when the flag is set, otherwise
pass the image reference through with no engine call. -/
def pull_image_if (eng : EngineBehavior Err) (image : String) (pull : Bool) :
    Except Err String × List Event :=
  match pull with
  | true => pull_image eng image
  | false => (Except.ok image, [])

/-- How a `Port` is handed to `ContainerOptions::expose`. -/
def portTriple (p : Port) : Nat × String × Nat :=
  (p.source, p.protocol.as_ref, p.host)

/-- Free function `create_container`: assemble the creation options from
the image, optional name and ports (in order) and issue one create call,
yielding the new container's id. -/
def create_container (eng : EngineBehavior Err) (image : String)
    (container_name : Option String) (ports : List Port) :
    Except Err String × List Event :=
  let options : ContainerOptions :=
    { image := image, name := container_name, ports := List.map portTriple ports }
  (eng.create options, [Event.create options])

/-- Free function `run_container`: issue one start call by id, yielding
the id back. -/
def run_container (eng : EngineBehavior Err) (id : String) :
    Except Err String × List Event :=
  (Except.map (fun _ => id) (eng.start id), [Event.start id])

/-- Free function `inspect_container`: issue one inspect call by id,
yielding the details snapshot. -/
def inspect_container (eng : EngineBehavior Err) (id : String) :
    Except Err ContainerDetails × List Event :=
  (eng.inspect id, [Event.inspect id])

/-- `Container`: an immutable handle holding the inspection snapshot.
(The shared client handle carries no observable state and is elided.) -/
structure Container where
  details : ContainerDetails
deriving DecidableEq, Repr

/-- `Container::id`: the engine-assigned identifier from the snapshot. -/
def Container.id (c : Container) : String :=
  c.details.id

/-- `Container::ports`: the port-binding map captured at inspection. -/
def Container.ports (c : Container) :
    Option (List (String × Option (List (List (String × String))))) :=
  c.details.network_settings.ports

/-- `Container::delete`: one removal call with `force = true`. -/
def Container.delete (c : Container) (eng : EngineBehavior Err) :
    Except Err Unit × List Event :=
  (eng.remove c.id true, [Event.remove c.id true])

/-- `ContainerBuilder`: the accumulated configuration. -/
structure ContainerBuilder where
  image_name : String
  image_tag : String
  name : Option String
  ports : List Port
  pull_on_build : Bool
  slug_length : Nat

/-- `ContainerBuilder::new`: tag "latest", no name, no ports, pull on
build disabled, slug length 0. -/
def ContainerBuilder.new (image_name : String) : ContainerBuilder :=
  { image_name := image_name
    image_tag := "latest"
    name := none
    ports := []
    pull_on_build := false
    slug_length := 0 }

/-- `ContainerBuilder::image`: the full image reference `name:tag`. -/
def ContainerBuilder.image (b : ContainerBuilder) : String :=
  b.image_name ++ ":" ++ b.image_tag

/-- `ContainerBuilder::name` (mutator): set the base name. -/
def ContainerBuilder.setName (b : ContainerBuilder) (n : String) : ContainerBuilder :=
  { b with name := some n }

/-- `ContainerBuilder::slug_length` (mutator): set the slug length. -/
def ContainerBuilder.setSlugLength (b : ContainerBuilder) (n : Nat) : ContainerBuilder :=
  { b with slug_length := n }

/-- `ContainerBuilder::expose`: append a port to the list. -/
def ContainerBuilder.expose (b : ContainerBuilder) (p : Port) : ContainerBuilder :=
  { b with ports := b.ports ++ [p] }

/-- The random alphanumeric slug: `n` characters drawn from the stream
(`thread_rng().sample_iter(&Alphanumeric).take(n).collect()`). -/
def slug (rng : Nat → Char) (n : Nat) : String :=
  String.mk (List.map rng (List.range n))

/-- `ContainerBuilder::slugged_name`: `none` when no base name was set;
the base name alone when `slug_length = 0`; otherwise the base name, an
underscore and a fresh random slug of the configured length. -/
def ContainerBuilder.slugged_name (b : ContainerBuilder) (rng : Nat → Char) :
    Option String :=
  match b.name with
  | none => none
  | some base_name =>
    if b.slug_length > 0 then
      some (base_name ++ "_" ++ slug rng b.slug_length)
    else
      some base_name

/-- `ContainerBuilder::pull_image`: pull the builder's image reference,
discarding the value. -/
def ContainerBuilder.pull_image (b : ContainerBuilder) (eng : EngineBehavior Err) :
    Except Err Unit × List Event :=
  mapRes (Canister.pull_image eng b.image) (fun _ => ())

/-- `ContainerBuilder::build`: pull (only if configured), then create,
then start, then inspect, each step gated on the previous succeeding;
the successful result wraps the inspection snapshot. -/
def ContainerBuilder.build (b : ContainerBuilder) (eng : EngineBehavior Err)
    (rng : Nat → Char) : Except Err Container × List Event :=
  let image := b.image
  let name := b.slugged_name rng
  let ports := b.ports
  mapRes
    (andThen (pull_image_if eng image b.pull_on_build) (fun image2 =>
      andThen (create_container eng image2 name ports) (fun id =>
        andThen (run_container eng id) (fun id2 =>
          inspect_container eng id2))))
    (fun details => { details := details })

/-- `Container::new`: build with an all-default configuration. -/
def Container.new (image_name : String) (eng : EngineBehavior Err)
    (rng : Nat → Char) : Except Err Container × List Event :=
  (ContainerBuilder.new image_name).build eng rng

/-- `Container::builder`: a fresh default builder for the image. -/
def Container.builder (image_name : String) : ContainerBuilder :=
  ContainerBuilder.new image_name

/-- The creation options `build` sends to the engine's create call. -/
def build_create_options (b : ContainerBuilder) (rng : Nat → Char) :
    ContainerOptions :=
  { image := b.image
    name := b.slugged_name rng
    ports := List.map portTriple b.ports }

/-- The trace prefix contributed by the optional pull step of `build`. -/
def pullTrace (b : ContainerBuilder) : List Event :=
  if b.pull_on_build then [Event.pull b.image] else []

/-! ### Concrete fixtures used to exercise the theorems -/

/-- A concrete random stream: the alphanumeric character 'a' forever. -/
def rngA : Nat → Char := fun _ => 'a'

/-- A concrete inspection snapshot. -/
def detailsW : ContainerDetails :=
  { id := "cid", network_settings := { ports := none } }

/-- An engine on which every call succeeds. -/
def engW : EngineBehavior String :=
  { pull := fun _ => Except.ok ()
    create := fun _ => Except.ok "cid"
    start := fun _ => Except.ok ()
    inspect := fun _ => Except.ok detailsW
    remove := fun _ _ => Except.ok () }

/-- An engine whose pull fails. -/
def engPullFail : EngineBehavior String :=
  { engW with pull := fun _ => Except.error "pull failed" }

/-- An engine whose create fails. -/
def engCreateFail : EngineBehavior String :=
  { engW with create := fun _ => Except.error "create failed" }

/-! ### Reduction equations for the combinators -/

@[simp]
theorem andThen_ok {α β : Type} (a : α) (t : List Event)
    (f : α → Except Err β × List Event) :
    andThen (Except.ok a, t) f = ((f a).1, t ++ (f a).2) := rfl

@[simp]
theorem andThen_error {α β : Type} (e : Err) (t : List Event)
    (f : α → Except Err β × List Event) :
    andThen (Except.error e, t) f = (Except.error e, t) := rfl

@[simp]
theorem mapRes_pair {α β : Type} (r : Except Err α) (t : List Event) (f : α → β) :
    mapRes (r, t) f = (Except.map f r, t) := rfl

@[simp]
theorem pull_image_if_true (eng : EngineBehavior Err) (image : String) :
    pull_image_if eng image true = pull_image eng image := rfl

@[simp]
theorem pull_image_if_false (eng : EngineBehavior Err) (image : String) :
    pull_image_if eng image false = (Except.ok image, []) := rfl

/-! ### Characterization of the `build` sequence, one lemma per outcome -/

theorem build_pull_err (b : ContainerBuilder) (eng : EngineBehavior Err)
    (rng : Nat → Char) (e : Err) (hp : b.pull_on_build = true)
    (he : eng.pull b.image = Except.error e) :
    b.build eng rng = (Except.error e, [Event.pull b.image]) := by
  simp [ContainerBuilder.build, pull_image, Except.map, hp, he]

theorem build_create_err (b : ContainerBuilder) (eng : EngineBehavior Err)
    (rng : Nat → Char) (e : Err)
    (hp : b.pull_on_build = true → eng.pull b.image = Except.ok ())
    (he : eng.create (build_create_options b rng) = Except.error e) :
    b.build eng rng =
      (Except.error e, pullTrace b ++ [Event.create (build_create_options b rng)]) := by
  simp only [build_create_options] at he
  cases hb : b.pull_on_build with
  | true =>
    simp [ContainerBuilder.build, pull_image, create_container, pullTrace,
      build_create_options, Except.map, hb, hp hb, he]
  | false =>
    simp [ContainerBuilder.build, create_container, pullTrace,
      build_create_options, Except.map, hb, he]

theorem build_start_err (b : ContainerBuilder) (eng : EngineBehavior Err)
    (rng : Nat → Char) (i : String) (e : Err)
    (hp : b.pull_on_build = true → eng.pull b.image = Except.ok ())
    (hc : eng.create (build_create_options b rng) = Except.ok i)
    (hs : eng.start i = Except.error e) :
    b.build eng rng =
      (Except.error e,
       pullTrace b ++ [Event.create (build_create_options b rng), Event.start i]) := by
  simp only [build_create_options] at hc
  cases hb : b.pull_on_build with
  | true =>
    simp [ContainerBuilder.build, pull_image, create_container, run_container,
      pullTrace, build_create_options, Except.map, hb, hp hb, hc, hs]
  | false =>
    simp [ContainerBuilder.build, create_container, run_container,
      pullTrace, build_create_options, Except.map, hb, hc, hs]

theorem build_inspect_err (b : ContainerBuilder) (eng : EngineBehavior Err)
    (rng : Nat → Char) (i : String) (e : Err)
    (hp : b.pull_on_build = true → eng.pull b.image = Except.ok ())
    (hc : eng.create (build_create_options b rng) = Except.ok i)
    (hs : eng.start i = Except.ok ())
    (hi : eng.inspect i = Except.error e) :
    b.build eng rng =
      (Except.error e,
       pullTrace b ++ [Event.create (build_create_options b rng),
                       Event.start i, Event.inspect i]) := by
  simp only [build_create_options] at hc
  cases hb : b.pull_on_build with
  | true =>
    simp [ContainerBuilder.build, pull_image, create_container, run_container,
      inspect_container, pullTrace, build_create_options, Except.map, hb, hp hb,
      hc, hs, hi]
  | false =>
    simp [ContainerBuilder.build, create_container, run_container,
      inspect_container, pullTrace, build_create_options, Except.map, hb, hc, hs, hi]

theorem build_ok (b : ContainerBuilder) (eng : EngineBehavior Err)
    (rng : Nat → Char) (i : String) (d : ContainerDetails)
    (hp : b.pull_on_build = true → eng.pull b.image = Except.ok ())
    (hc : eng.create (build_create_options b rng) = Except.ok i)
    (hs : eng.start i = Except.ok ())
    (hi : eng.inspect i = Except.ok d) :
    b.build eng rng =
      (Except.ok { details := d },
       pullTrace b ++ [Event.create (build_create_options b rng),
                       Event.start i, Event.inspect i]) := by
  simp only [build_create_options] at hc
  cases hb : b.pull_on_build with
  | true =>
    simp [ContainerBuilder.build, pull_image, create_container, run_container,
      inspect_container, pullTrace, build_create_options, Except.map, hb, hp hb,
      hc, hs, hi]
  | false =>
    simp [ContainerBuilder.build, create_container, run_container,
      inspect_container, pullTrace, build_create_options, Except.map, hb, hc, hs, hi]

/-! ### Inversion: what a successful `build` implies about the engine -/

theorem build_pull_ok_of_ok (b : ContainerBuilder) (eng : EngineBehavior Err)
    (rng : Nat → Char) (c : Container)
    (h : (b.build eng rng).1 = Except.ok c) (hb : b.pull_on_build = true) :
    eng.pull b.image = Except.ok () := by
  cases hpl : eng.pull b.image with
  | ok u => cases u; rfl
  | error e => rw [build_pull_err b eng rng e hb hpl] at h; simp at h

theorem build_ok_inv (b : ContainerBuilder) (eng : EngineBehavior Err)
    (rng : Nat → Char) (c : Container)
    (h : (b.build eng rng).1 = Except.ok c) :
    (b.pull_on_build = true → eng.pull b.image = Except.ok ()) ∧
    ∃ i, eng.create (build_create_options b rng) = Except.ok i ∧
      eng.start i = Except.ok () ∧ eng.inspect i = Except.ok c.details := by
  have hp : b.pull_on_build = true → eng.pull b.image = Except.ok () :=
    fun hb => build_pull_ok_of_ok b eng rng c h hb
  refine ⟨hp, ?_⟩
  cases hc : eng.create (build_create_options b rng) with
  | error e => rw [build_create_err b eng rng e hp hc] at h; simp at h
  | ok i =>
    cases hs : eng.start i with
    | error e => rw [build_start_err b eng rng i e hp hc hs] at h; simp at h
    | ok u =>
      cases u
      cases hi : eng.inspect i with
      | error e => rw [build_inspect_err b eng rng i e hp hc hs hi] at h; simp at h
      | ok d =>
        rw [build_ok b eng rng i d hp hc hs hi] at h
        simp at h
        cases h
        exact ⟨i, rfl, hs, hi⟩

/-! ### The create call of `build` always carries the resolved options -/

theorem create_not_mem_pullTrace (b : ContainerBuilder) (o : ContainerOptions) :
    Event.create o ∉ pullTrace b := by
  cases hb : b.pull_on_build <;> simp [pullTrace, hb]

theorem build_create_mem_aux (b : ContainerBuilder) (eng : EngineBehavior Err)
    (rng : Nat → Char) (o : ContainerOptions)
    (hp : b.pull_on_build = true → eng.pull b.image = Except.ok ())
    (h : Event.create o ∈ (b.build eng rng).2) :
    o = build_create_options b rng := by
  cases hc : eng.create (build_create_options b rng) with
  | error e =>
    rw [build_create_err b eng rng e hp hc] at h
    rcases List.mem_append.1 h with h1 | h1
    case inl => exact absurd h1 (create_not_mem_pullTrace b o)
    case inr => simpa using h1
  | ok i =>
    cases hs : eng.start i with
    | error e =>
      rw [build_start_err b eng rng i e hp hc hs] at h
      rcases List.mem_append.1 h with h1 | h1
      case inl => exact absurd h1 (create_not_mem_pullTrace b o)
      case inr => simpa using h1
    | ok u =>
      cases u
      cases hi : eng.inspect i with
      | error e =>
        rw [build_inspect_err b eng rng i e hp hc hs hi] at h
        rcases List.mem_append.1 h with h1 | h1
        case inl => exact absurd h1 (create_not_mem_pullTrace b o)
        case inr => simpa using h1
      | ok d =>
        rw [build_ok b eng rng i d hp hc hs hi] at h
        rcases List.mem_append.1 h with h1 | h1
        case inl => exact absurd h1 (create_not_mem_pullTrace b o)
        case inr => simpa using h1

theorem build_create_mem (b : ContainerBuilder) (eng : EngineBehavior Err)
    (rng : Nat → Char) (o : ContainerOptions)
    (h : Event.create o ∈ (b.build eng rng).2) :
    o = build_create_options b rng := by
  cases hb : b.pull_on_build with
  | false =>
    refine build_create_mem_aux b eng rng o ?_ h
    intro hbt
    rw [hb] at hbt
    cases hbt
  | true =>
    cases hpl : eng.pull b.image with
    | error e =>
      rw [build_pull_err b eng rng e hb hpl] at h
      simp at h
    | ok u =>
      cases u
      exact build_create_mem_aux b eng rng o (fun _ => hpl) h

/-! ### The random slug -/

theorem slug_length_eq (rng : Nat → Char) (n : Nat) : (slug rng n).length = n := by
  simp [slug, String.length]

theorem slug_data_alphanum (rng : Nat → Char) (n : Nat)
    (h : ∀ i, (rng i).isAlphanum = true) :
    ∀ ch ∈ (slug rng n).data, ch.isAlphanum = true := by
  intro ch hch
  simp [slug] at hch
  obtain ⟨i, -, rfl⟩ := hch
  exact h i

/-! ### Claim theorems -/

/-- Claim C1: a `Container` value is only produced by a `build` run in
which the create step and then the start step (and then inspect) all
succeeded on the engine; `build` never yields a `Container` for a
container that was created but not started. -/
theorem build_ok_requires_create_and_start (b : ContainerBuilder)
    (eng : EngineBehavior Err) (rng : Nat → Char) (c : Container)
    (h : (b.build eng rng).1 = Except.ok c) :
    ∃ i, eng.create (build_create_options b rng) = Except.ok i ∧
      eng.start i = Except.ok () ∧ eng.inspect i = Except.ok c.details ∧
      (b.build eng rng).2 =
        pullTrace b ++ [Event.create (build_create_options b rng),
                        Event.start i, Event.inspect i] := by
  obtain ⟨hp, i, hc, hs, hi⟩ := build_ok_inv b eng rng c h
  refine ⟨i, hc, hs, hi, ?_⟩
  rw [build_ok b eng rng i c.details hp hc hs hi]

/-- Witness for C1 at a fully concrete build. -/
theorem build_ok_requires_create_and_start_witness :
    ∃ i, engW.create (build_create_options (ContainerBuilder.new "redis") rngA) =
      Except.ok i ∧
      engW.start i = Except.ok () ∧
      engW.inspect i = Except.ok detailsW ∧
      ((ContainerBuilder.new "redis").build engW rngA).2 =
        pullTrace (ContainerBuilder.new "redis") ++
          [Event.create (build_create_options (ContainerBuilder.new "redis") rngA),
           Event.start i, Event.inspect i] :=
  build_ok_requires_create_and_start (ContainerBuilder.new "redis") engW rngA
    { details := detailsW } rfl

/-- Claim C2: `build` performs pull (only when the flag is set), create,
start, inspect in strict sequence, each gated on the previous step
succeeding; any failure aborts the sequence immediately (no later step
runs, no rollback or retry), and the engine error is returned to the
caller unmodified. -/
theorem build_step_sequencing (b : ContainerBuilder) (eng : EngineBehavior Err)
    (rng : Nat → Char) :
    (∀ e, b.pull_on_build = true → eng.pull b.image = Except.error e →
      b.build eng rng = (Except.error e, [Event.pull b.image])) ∧
    (∀ e, (b.pull_on_build = true → eng.pull b.image = Except.ok ()) →
      eng.create (build_create_options b rng) = Except.error e →
      b.build eng rng =
        (Except.error e, pullTrace b ++ [Event.create (build_create_options b rng)])) ∧
    (∀ i e, (b.pull_on_build = true → eng.pull b.image = Except.ok ()) →
      eng.create (build_create_options b rng) = Except.ok i →
      eng.start i = Except.error e →
      b.build eng rng =
        (Except.error e,
         pullTrace b ++ [Event.create (build_create_options b rng), Event.start i])) ∧
    (∀ i e, (b.pull_on_build = true → eng.pull b.image = Except.ok ()) →
      eng.create (build_create_options b rng) = Except.ok i →
      eng.start i = Except.ok () →
      eng.inspect i = Except.error e →
      b.build eng rng =
        (Except.error e,
         pullTrace b ++ [Event.create (build_create_options b rng),
                         Event.start i, Event.inspect i])) ∧
    (∀ i d, (b.pull_on_build = true → eng.pull b.image = Except.ok ()) →
      eng.create (build_create_options b rng) = Except.ok i →
      eng.start i = Except.ok () →
      eng.inspect i = Except.ok d →
      b.build eng rng =
        (Except.ok { details := d },
         pullTrace b ++ [Event.create (build_create_options b rng),
                         Event.start i, Event.inspect i])) :=
  ⟨fun e hp he => build_pull_err b eng rng e hp he,
   fun e hp he => build_create_err b eng rng e hp he,
   fun i e hp hc hs => build_start_err b eng rng i e hp hc hs,
   fun i e hp hc hs hi => build_inspect_err b eng rng i e hp hc hs hi,
   fun i d hp hc hs hi => build_ok b eng rng i d hp hc hs hi⟩

/-- Witness for C2: a pull failure aborts the whole sequence with the
engine's own error, having issued only the pull call. -/
theorem build_step_sequencing_witness :
    ({ ContainerBuilder.new "redis" with pull_on_build := true }).build engPullFail rngA =
      (Except.error "pull failed", [Event.pull "redis:latest"]) :=
  (build_step_sequencing { ContainerBuilder.new "redis" with pull_on_build := true }
      engPullFail rngA).1 "pull failed" rfl rfl

/-- Claim C3: with base name `f` and `slug_length = N > 0` the name sent
to the create step is `f`, an underscore, and exactly `N` alphanumeric
characters; with `slug_length = 0` it is `f` itself; with no base name
set, no name is included in the creation parameters, regardless of the
slug length. -/
theorem resolved_name_spec (b : ContainerBuilder) (f : String)
    (eng : EngineBehavior Err) (rng : Nat → Char)
    (hrng : ∀ i, (rng i).isAlphanum = true) :
    (b.name = some f → 0 < b.slug_length →
      ∃ s : String, b.slugged_name rng = some (f ++ "_" ++ s) ∧
        s.length = b.slug_length ∧ ∀ ch ∈ s.data, ch.isAlphanum = true) ∧
    (b.name = some f → b.slug_length = 0 → b.slugged_name rng = some f) ∧
    (b.name = none → ∀ o, Event.create o ∈ (b.build eng rng).2 → o.name = none) ∧
    (∀ o, Event.create o ∈ (b.build eng rng).2 → o.name = b.slugged_name rng) := by
  refine ⟨?_, ?_, ?_, ?_⟩
  case refine_1 =>
    intro hn hl
    refine ⟨slug rng b.slug_length, ?_, slug_length_eq rng b.slug_length,
      slug_data_alphanum rng b.slug_length hrng⟩
    simp [ContainerBuilder.slugged_name, hn, hl]
  case refine_2 =>
    intro hn hl
    simp [ContainerBuilder.slugged_name, hn, hl]
  case refine_3 =>
    intro hn o ho
    rw [build_create_mem b eng rng o ho]
    simp [build_create_options, ContainerBuilder.slugged_name, hn]
  case refine_4 =>
    intro o ho
    rw [build_create_mem b eng rng o ho]
    rfl

/-- Witness for C3 with base name "foo" and slug length 4. -/
theorem resolved_name_spec_witness :
    ∃ s : String,
      (((ContainerBuilder.new "redis").setName "foo").setSlugLength 4).slugged_name rngA =
        some ("foo" ++ "_" ++ s) ∧
      s.length = (((ContainerBuilder.new "redis").setName "foo").setSlugLength 4).slug_length ∧
      ∀ ch ∈ s.data, ch.isAlphanum = true :=
  (resolved_name_spec (((ContainerBuilder.new "redis").setName "foo").setSlugLength 4)
      "foo" engW rngA (fun _ => rfl)).1 rfl (by decide)

/-- Claim C4: the end-to-end build with image "redis", default tag, name
"cache", slug length 0 and one exposed port (6379, TCP, 6379) issues
create with image "redis:latest", name "cache" and port mapping
6379→6379/tcp, then start and inspect with the id returned by create,
and (the engine reporting that id in its snapshot) the resulting
container's `id` equals the id returned by create. -/
theorem redis_cache_end_to_end (eng : EngineBehavior Err) (rng : Nat → Char)
    (i : String) (d : ContainerDetails)
    (hc : eng.create
      { image := "redis:latest", name := some "cache",
        ports := [(6379, "tcp", 6379)] } = Except.ok i)
    (hs : eng.start i = Except.ok ())
    (hi : eng.inspect i = Except.ok d)
    (hd : d.id = i) :
    (((ContainerBuilder.new "redis").setName "cache").expose
        { source := 6379, host := 6379, protocol := Protocol.tcp }).build eng rng =
      (Except.ok { details := d },
       [Event.create
          { image := "redis:latest", name := some "cache",
            ports := [(6379, "tcp", 6379)] },
        Event.start i, Event.inspect i]) ∧
    Container.id { details := d } = i := by
  constructor
  case left =>
    exact build_ok
      (((ContainerBuilder.new "redis").setName "cache").expose
        { source := 6379, host := 6379, protocol := Protocol.tcp })
      eng rng i d (fun hb => by cases hb) hc hs hi
  case right =>
    simpa [Container.id] using hd

/-- Witness for C4 on a concrete all-succeeding engine. -/
theorem redis_cache_end_to_end_witness :
    (((ContainerBuilder.new "redis").setName "cache").expose
        { source := 6379, host := 6379, protocol := Protocol.tcp }).build engW rngA =
      (Except.ok { details := detailsW },
       [Event.create
          { image := "redis:latest", name := some "cache",
            ports := [(6379, "tcp", 6379)] },
        Event.start "cid", Event.inspect "cid"]) ∧
    Container.id { details := detailsW } = "cid" :=
  redis_cache_end_to_end engW rngA "cid" detailsW rfl rfl rfl rfl

/-- Claim C5: `expose` appends to the port list, and the creation
parameters sent to the engine list the ports in exactly the order the
`expose` calls were made. -/
theorem expose_order_preserved (b : ContainerBuilder) (p : Port)
    (eng : EngineBehavior Err) (rng : Nat → Char) :
    (b.expose p).ports = b.ports ++ [p] ∧
    ∀ o, Event.create o ∈ (b.build eng rng).2 →
      o.ports = List.map portTriple b.ports :=
  ⟨rfl, fun o ho => by rw [build_create_mem b eng rng o ho]; rfl⟩

/-- Witness for C5: a builder exposed in the order 80/tcp→8080 then
443/tcp→8443 declares both mappings in that order in the create call. -/
theorem expose_order_preserved_witness :
    ({ image := "web:latest", name := none,
       ports := [(80, "tcp", 8080), (443, "tcp", 8443)] } : ContainerOptions).ports =
      List.map portTriple
        (((ContainerBuilder.new "web").expose
            { source := 80, host := 8080, protocol := Protocol.tcp }).expose
          { source := 443, host := 8443, protocol := Protocol.tcp }).ports :=
  (expose_order_preserved
      (((ContainerBuilder.new "web").expose
          { source := 80, host := 8080, protocol := Protocol.tcp }).expose
        { source := 443, host := 8443, protocol := Protocol.tcp })
      { source := 80, host := 8080, protocol := Protocol.tcp } engW rngA).2
    { image := "web:latest", name := none,
      ports := [(80, "tcp", 8080), (443, "tcp", 8443)] } (by decide)

/-- Claim C6: `ContainerBuilder::new` always succeeds (it is total) and
initializes the builder with tag "latest", no name, an empty port list,
pull-on-build disabled and slug length 0. -/
theorem builder_new_defaults (s : String) :
    (ContainerBuilder.new s).image_name = s ∧
    (ContainerBuilder.new s).image_tag = "latest" ∧
    (ContainerBuilder.new s).name = none ∧
    (ContainerBuilder.new s).ports = [] ∧
    (ContainerBuilder.new s).pull_on_build = false ∧
    (ContainerBuilder.new s).slug_length = 0 :=
  ⟨rfl, rfl, rfl, rfl, rfl, rfl⟩

/-- Claim C7: `delete` issues exactly one removal call to the engine,
with `force = true`, for every container and engine behavior (hence
regardless of running state), and its outcome is exactly the engine's
response to that call. -/
theorem delete_forced_removal (c : Container) (eng : EngineBehavior Err) :
    (c.delete eng).2 = [Event.remove c.id true] ∧
    (c.delete eng).1 = eng.remove c.id true :=
  ⟨rfl, rfl⟩

/-- Claim C8: `pull_image` on a builder issues only a pull of the
builder's image reference; it never issues a create or a start call,
and it completes exactly when the engine's pull (the drained stream)
does. -/
theorem pull_image_only_pulls (b : ContainerBuilder) (eng : EngineBehavior Err) :
    (b.pull_image eng).2 = [Event.pull b.image] ∧
    (∀ o, Event.create o ∉ (b.pull_image eng).2) ∧
    (∀ i, Event.start i ∉ (b.pull_image eng).2) ∧
    (b.pull_image eng).1 = Except.map (fun _ => ()) (eng.pull b.image) := by
  refine ⟨rfl, ?_, ?_, ?_⟩
  case refine_1 =>
    intro o
    simp [ContainerBuilder.pull_image, pull_image, mapRes]
  case refine_2 =>
    intro i
    simp [ContainerBuilder.pull_image, pull_image, mapRes]
  case refine_3 =>
    cases hpl : eng.pull b.image <;>
      simp [ContainerBuilder.pull_image, pull_image, mapRes, Except.map, hpl]

/-- Witness for C8 at a concrete builder and engine. -/
theorem pull_image_only_pulls_witness :
    ((ContainerBuilder.new "redis").pull_image engW).2 = [Event.pull "redis:latest"] :=
  (pull_image_only_pulls (ContainerBuilder.new "redis") engW).1

/-- Claim C9: `ports` is a pure accessor of the inspection snapshot
captured at build time — two calls return identical data and no engine
query is performed (the snapshot is exactly what inspect returned during
`build`). -/
theorem ports_pure_snapshot (b : ContainerBuilder) (eng : EngineBehavior Err)
    (rng : Nat → Char) (c : Container)
    (h : (b.build eng rng).1 = Except.ok c) :
    c.ports = c.ports ∧
    ∃ i, eng.inspect i = Except.ok c.details ∧
      c.ports = c.details.network_settings.ports := by
  obtain ⟨-, i, -, -, hi⟩ := build_ok_inv b eng rng c h
  exact ⟨rfl, i, hi, rfl⟩

/-- Witness for C9 on a concrete successful build. -/
theorem ports_pure_snapshot_witness :
    Container.ports { details := detailsW } = Container.ports { details := detailsW } ∧
    ∃ i, engW.inspect i = Except.ok (Container.details { details := detailsW }) ∧
      Container.ports { details := detailsW } =
        (Container.details { details := detailsW }).network_settings.ports :=
  ports_pure_snapshot (ContainerBuilder.new "redis") engW rngA
    { details := detailsW } rfl

/-- Claim C10: `Container::new` behaves identically to building a fresh
default-configured builder — tag "latest", no name, no ports, no pull,
slug length 0 — for every engine behavior and random stream. -/
theorem container_new_refines_default_build (s : String)
    (eng : EngineBehavior Err) (rng : Nat → Char) :
    Container.new s eng rng =
      ContainerBuilder.build
        { image_name := s, image_tag := "latest", name := none, ports := [],
          pull_on_build := false, slug_length := 0 } eng rng ∧
    Container.new s eng rng = (ContainerBuilder.new s).build eng rng :=
  ⟨rfl, rfl⟩

end Canister
